import Mathlib

/-!
Verification of the FoodEasy backend's OTP lifecycle and bearer-token gate.

The OTP service (`app/services/twilio_otp_service.py`) keeps an in-memory
dictionary from phone number to `{"code": str, "expires_at": float}`.  We embed
that dictionary as a function `String → Option OtpEntry` (per-key semantics of a
Python dict) and time as a natural number.  The auth dependency
(`app/dependencies/auth.py`) parses the `Authorization` header with Python's
`str.split()` (whitespace runs, empty pieces discarded), which we embed over
`List Char`.  The external JWT verifier and the user directory are abstract
parameters: `verify` returns `none` when `verify_access_token` raises, and
`some sub` for a decoded payload whose optional `sub` claim is `sub`.
-/

namespace FoodEasy

/-- One record of the OTP store: `{"code": code, "expires_at": expires_at}`. -/
structure OtpEntry where
  code : String
  expires_at : Nat
  deriving DecidableEq, Repr

/-- The in-memory store `_otp_store : Dict[str, Dict]`, embedded per key. -/
abbrev Store := String → Option OtpEntry

/-- The empty store. -/
def Store.empty : Store := fun _ => none

/-- `_otp_store[k] = v` (dict assignment: replaces any previous entry). -/
def Store.insert (s : Store) (k : String) (v : OtpEntry) : Store :=
  fun k2 => if k2 = k then some v else s k2

/-- `del _otp_store[k]`. -/
def Store.erase (s : Store) (k : String) : Store :=
  fun k2 => if k2 = k then none else s k2

/-- `OTP_TTL_SECONDS` with its default of 600 seconds. -/
def OTP_TTL_SECONDS : Nat := 600

/-- Python's `str.strip()` with no argument: drop leading and trailing
whitespace. -/
def pyStrip (s : String) : String :=
  ⟨((s.data.dropWhile Char.isWhitespace).reverse.dropWhile
      Char.isWhitespace).reverse⟩

/-- `_clean_expired()`: delete every entry with `expires_at <= now`. -/
def clean_expired (now : Nat) (s : Store) : Store :=
  fun k =>
    match s k with
    | some e => if e.expires_at ≤ now then none else some e
    | none => none

/-- The Twilio configuration read from the environment, plus whether the
module-level `_twilio_client` has already been constructed (the credential
check in `get_twilio_client` runs only when the client is still `None`). -/
structure TwilioConfig where
  accountSid : String
  authToken : String
  phoneNumber : String
  clientCached : Bool

/-- `send_otp(phone_number)`: clean expired entries, generate a code (here a
parameter, since `_generate_otp` draws from a CSPRNG), store it with
`expires_at = now + OTP_TTL_SECONDS`, and only then consult the Twilio
configuration (`get_twilio_client`, `_get_from_number`), which may raise.
The store write is unconditional and precedes every configuration check,
exactly as in the source.  The result of the SMS dispatch itself is outside
the embedding; a run reaching dispatch is `.ok`. -/
def send_otp (cfg : TwilioConfig) (phone code : String) (now : Nat)
    (s : Store) : Store × Except String Unit :=
  let s2 := (clean_expired now s).insert phone ⟨code, now + OTP_TTL_SECONDS⟩
  (s2,
    if cfg.clientCached = false ∧ (cfg.accountSid = "" ∨ cfg.authToken = "") then
      .error "Twilio credentials not configured"
    else if cfg.phoneNumber = "" ∨ pyStrip cfg.phoneNumber = "" then
      .error "Twilio phone number not configured"
    else
      .ok ())

/-- `verify_otp(phone_number, code)`: clean expired entries, then look the
subject up; missing record → `false`; expired record → delete it, `false`;
code mismatch (stored code vs `code.strip()`) → `false`, record retained;
match → delete the record, `true`.  Returns the resulting store with the
boolean. -/
def verify_otp (phone code : String) (now : Nat) (s : Store) : Store × Bool :=
  let s1 := clean_expired now s
  match s1 phone with
  | none => (s1, false)
  | some entry =>
    if entry.expires_at ≤ now then (s1.erase phone, false)
    else if entry.code ≠ pyStrip code then (s1, false)
    else (s1.erase phone, true)

/-! ### Bearer-token gate (`app/dependencies/auth.py`) -/

/-- Python strings, embedded as character lists. -/
abbrev Str := List Char

/-- Worker for Python's `str.split()` with no separator: split on runs of
whitespace, discarding empty pieces.  `acc` holds the current word reversed. -/
def pySplitAux : Str → Str → List Str
  | [], acc => if acc = [] then [] else [acc.reverse]
  | c :: cs, acc =>
    if c.isWhitespace then
      if acc = [] then pySplitAux cs []
      else acc.reverse :: pySplitAux cs []
    else pySplitAux cs (c :: acc)

/-- Python's `s.split()` (no separator argument). -/
def pySplit (s : Str) : List Str := pySplitAux s []

/-- Python's `s.lower()`. -/
def pyLower (s : Str) : Str := s.map Char.toLower

/-- An `HTTPException`: status code and detail message. -/
structure HTTPError where
  status : Nat
  detail : String
  deriving DecidableEq, Repr

/-- The 401 raised when the `Authorization` header is absent (or falsy). -/
def errHeaderRequired : HTTPError := ⟨401, "Authorization header is required"⟩

/-- The 401 raised when the header is not `Bearer <token>` shaped. -/
def errBadFormat : HTTPError :=
  ⟨401, "Invalid authorization format. Expected: Bearer <token>"⟩

/-- The 401 raised when `verify_access_token` raises. -/
def errInvalidToken : HTTPError :=
  ⟨401, "Invalid or expired token. Please login again."⟩

/-- The 401 raised when the decoded payload has no truthy `sub` claim. -/
def errMissingSub : HTTPError := ⟨401, "Invalid token: missing user identifier"⟩

/-- The 401 raised when `auth_service.get_user_by_id` raises `ValueError`. -/
def errUserGone : HTTPError := ⟨401, "User not found or deactivated."⟩

/-- The 403 raised by `verify_user_access` on an owner mismatch. -/
def errForbidden : HTTPError :=
  ⟨403, "You do not have permission to access this resource."⟩

/-- The body of the second `try` in `get_current_user_id`: run the abstract
verifier on the token (`none` models `verify_access_token` raising), check the
`sub` claim is present and truthy, then check the user still resolves in the
directory. -/
def handle_token (verify : Str → Option (Option Str)) (userActive : Str → Bool)
    (token : Str) : Except HTTPError Str :=
  match verify token with
  | none => .error errInvalidToken
  | some none => .error errMissingSub
  | some (some uid) =>
    if uid = [] then .error errMissingSub
    else if userActive uid then .ok uid
    else .error errUserGone

/-- `scheme, token = authorization.split()` with the scheme check: anything but
exactly two parts raises `ValueError` (caught as the format error), and a
scheme whose lowercase form is not `"bearer"` raises the same error. -/
def handle_parts (verify : Str → Option (Option Str)) (userActive : Str → Bool)
    (parts : List Str) : Except HTTPError Str :=
  match parts with
  | [scheme, token] =>
    if pyLower scheme = "bearer".toList then handle_token verify userActive token
    else .error errBadFormat
  | _ => .error errBadFormat

/-- `get_current_user_id(authorization)`: `None` or an empty header is falsy
(`if not authorization`) → header-required 401; otherwise split and check the
scheme, then verify the token. -/
def get_current_user_id (verify : Str → Option (Option Str))
    (userActive : Str → Bool) (authorization : Option Str) :
    Except HTTPError Str :=
  match authorization with
  | none => .error errHeaderRequired
  | some a =>
    if a = [] then .error errHeaderRequired
    else handle_parts verify userActive (pySplit a)

/-- `verify_user_access(user_id, current_user_id)`: forbidden 403 when the
authenticated subject differs from the requested owner (after `str()`, which is
the identity on strings); otherwise return the requested identifier. -/
def verify_user_access (user_id current_user_id : String) :
    Except HTTPError String :=
  if current_user_id ≠ user_id then .error errForbidden
  else .ok user_id

/-- A rejected-before-verification header: absent, falsy-empty, or one whose
`split()` does not yield exactly a two-part `bearer`-schemed credential. -/
def BadAuthHeader : Option Str → Prop
  | none => True
  | some s =>
      s = [] ∨ ∀ sch tok, pySplit s = [sch, tok] → pyLower sch ≠ "bearer".toList

/-! ### Helper lemmas on the OTP store -/

lemma Store.insert_self (s : Store) (k : String) (v : OtpEntry) :
    s.insert k v k = some v := by
  simp [Store.insert]

lemma Store.insert_other (s : Store) (k k2 : String) (v : OtpEntry)
    (h : k2 ≠ k) : s.insert k v k2 = s k2 := by
  simp [Store.insert, h]

lemma Store.erase_self (s : Store) (k : String) : s.erase k k = none := by
  simp [Store.erase]

lemma Store.erase_other (s : Store) (k k2 : String) (h : k2 ≠ k) :
    s.erase k k2 = s k2 := by
  simp [Store.erase, h]

lemma clean_expired_live (now : Nat) (s : Store) (k : String) (e : OtpEntry)
    (hk : s k = some e) (he : now < e.expires_at) :
    clean_expired now s k = some e := by
  simp [clean_expired, hk, Nat.not_le.mpr he]

lemma clean_expired_dead (now : Nat) (s : Store) (k : String) (e : OtpEntry)
    (hk : s k = some e) (he : e.expires_at ≤ now) :
    clean_expired now s k = none := by
  simp [clean_expired, hk, he]

lemma clean_expired_none (now : Nat) (s : Store) (k : String)
    (hk : s k = none) : clean_expired now s k = none := by
  simp [clean_expired, hk]

lemma verify_otp_hit (phone code : String) (now : Nat) (s : Store)
    (e : OtpEntry) (hk : clean_expired now s phone = some e)
    (hnow : ¬ e.expires_at ≤ now) (hc : e.code = pyStrip code) :
    verify_otp phone code now s = ((clean_expired now s).erase phone, true) := by
  simp only [verify_otp]
  rw [hk]
  simp [hnow, hc]

lemma verify_otp_wrong (phone code : String) (now : Nat) (s : Store)
    (e : OtpEntry) (hk : clean_expired now s phone = some e)
    (hnow : ¬ e.expires_at ≤ now) (hc : e.code ≠ pyStrip code) :
    verify_otp phone code now s = (clean_expired now s, false) := by
  simp only [verify_otp]
  rw [hk]
  simp [hnow, hc]

lemma verify_otp_miss (phone code : String) (now : Nat) (s : Store)
    (hk : clean_expired now s phone = none) :
    verify_otp phone code now s = (clean_expired now s, false) := by
  simp only [verify_otp]
  rw [hk]

lemma send_otp_fst (cfg : TwilioConfig) (phone code : String) (now : Nat)
    (s : Store) :
    (send_otp cfg phone code now s).1 =
      (clean_expired now s).insert phone ⟨code, now + OTP_TTL_SECONDS⟩ := rfl

lemma verify_otp_fst_frame (a cand : String) (now : Nat) (s : Store)
    (b : String) (hab : b ≠ a) :
    (verify_otp a cand now s).1 b = clean_expired now s b := by
  simp only [verify_otp]
  cases h : clean_expired now s a with
  | none => rfl
  | some e =>
    by_cases h1 : e.expires_at ≤ now
    · simp [h1, Store.erase_other _ _ _ hab]
    · by_cases h2 : e.code ≠ pyStrip cand
      · simp [h1, h2]
      · simp [h1, h2, Store.erase_other _ _ _ hab]

/-! ### Claim theorems for the OTP lifecycle -/

/-- C1: issuing a code for a subject and then verifying the stored code before
the TTL elapses returns `true` exactly once; the record is deleted on that
first success, so an immediately repeated verification with the same code
returns `false`. -/
theorem otp_issue_verify_once (cfg : TwilioConfig) (phone code : String)
    (now t : Nat) (s : Store) (hcode : pyStrip code = code)
    (ht : t < now + OTP_TTL_SECONDS) :
    (verify_otp phone code t (send_otp cfg phone code now s).1).2 = true ∧
    (verify_otp phone code t
      (verify_otp phone code t (send_otp cfg phone code now s).1).1).2 = false := by
  have hlook : (send_otp cfg phone code now s).1 phone =
      some ⟨code, now + OTP_TTL_SECONDS⟩ := by
    rw [send_otp_fst]; exact Store.insert_self ..
  have hc1 := clean_expired_live t _ phone _ hlook ht
  have hv1 := verify_otp_hit phone code t (send_otp cfg phone code now s).1
    ⟨code, now + OTP_TTL_SECONDS⟩ hc1 (Nat.not_le.mpr ht) hcode.symm
  refine ⟨by rw [hv1], ?_⟩
  rw [hv1]
  have h2 : clean_expired t
      (((clean_expired t (send_otp cfg phone code now s).1)).erase phone)
      phone = none :=
    clean_expired_none _ _ _ (Store.erase_self ..)
  rw [verify_otp_miss _ _ _ _ h2]

/-- Witness for `otp_issue_verify_once` at concrete inputs. -/
theorem otp_issue_verify_once_witness :
    pyStrip "123456" = "123456" ∧ (5 : Nat) < 0 + OTP_TTL_SECONDS ∧
    ((verify_otp "p" "123456" 5
        (send_otp ⟨"sid", "tok", "+1", true⟩ "p" "123456" 0 Store.empty).1).2 =
          true ∧
     (verify_otp "p" "123456" 5
        (verify_otp "p" "123456" 5
          (send_otp ⟨"sid", "tok", "+1", true⟩ "p" "123456" 0
            Store.empty).1).1).2 = false) :=
  ⟨by decide, by decide,
    otp_issue_verify_once ⟨"sid", "tok", "+1", true⟩ "p" "123456" 0 5
      Store.empty (by decide) (by decide)⟩

/-- C2: a second issuance for the same subject overwrites the first record (the
store is keyed per subject, so it holds at most one record per subject), and
verifying with the first code afterwards returns `false` whenever the two
generated codes differ. -/
theorem otp_reissue_overwrites (cfg cfg2 : TwilioConfig)
    (phone code1 code2 : String) (now now2 t : Nat) (s : Store)
    (hne : code2 ≠ pyStrip code1) :
    (send_otp cfg2 phone code2 now2
        (send_otp cfg phone code1 now s).1).1 phone =
      some ⟨code2, now2 + OTP_TTL_SECONDS⟩ ∧
    (verify_otp phone code1 t
      (send_otp cfg2 phone code2 now2
        (send_otp cfg phone code1 now s).1).1).2 = false := by
  have hlook : (send_otp cfg2 phone code2 now2
      (send_otp cfg phone code1 now s).1).1 phone =
      some ⟨code2, now2 + OTP_TTL_SECONDS⟩ := by
    rw [send_otp_fst]; exact Store.insert_self ..
  refine ⟨hlook, ?_⟩
  by_cases hexp : now2 + OTP_TTL_SECONDS ≤ t
  · have hc := clean_expired_dead t _ phone _ hlook hexp
    rw [verify_otp_miss _ _ _ _ hc]
  · have hc := clean_expired_live t _ phone _ hlook (Nat.not_le.mp hexp)
    rw [verify_otp_wrong _ _ _ _ _ hc hexp hne]

/-- Witness for `otp_reissue_overwrites` at concrete inputs. -/
theorem otp_reissue_overwrites_witness :
    ("654321" : String) ≠ pyStrip "123456" ∧
    ((send_otp ⟨"s", "t", "+1", true⟩ "p" "654321" 1
        (send_otp ⟨"s", "t", "+1", true⟩ "p" "123456" 0 Store.empty).1).1 "p" =
      some ⟨"654321", 1 + OTP_TTL_SECONDS⟩ ∧
    (verify_otp "p" "123456" 2
      (send_otp ⟨"s", "t", "+1", true⟩ "p" "654321" 1
        (send_otp ⟨"s", "t", "+1", true⟩ "p" "123456" 0
          Store.empty).1).1).2 = false) :=
  ⟨by decide,
    otp_reissue_overwrites ⟨"s", "t", "+1", true⟩ ⟨"s", "t", "+1", true⟩
      "p" "123456" "654321" 0 1 2 Store.empty (by decide)⟩

/-- C3: a wrong candidate (one whose stripped form differs from the stored
code) is rejected with `false`, the subject's record is retained unchanged, and
a later verification with the correct code within the TTL still succeeds. -/
theorem otp_wrong_code_retains (phone cand : String) (t t2 : Nat) (s : Store)
    (e : OtpEntry) (hlook : s phone = some e) (hunexp : t < e.expires_at)
    (hne : e.code ≠ pyStrip cand) (ht2 : t2 < e.expires_at)
    (htrim : pyStrip e.code = e.code) :
    (verify_otp phone cand t s).2 = false ∧
    (verify_otp phone cand t s).1 phone = some e ∧
    (verify_otp phone e.code t2 (verify_otp phone cand t s).1).2 = true := by
  have hc := clean_expired_live t s phone e hlook hunexp
  have hv := verify_otp_wrong phone cand t s e hc (Nat.not_le.mpr hunexp) hne
  refine ⟨by rw [hv], by rw [hv]; exact hc, ?_⟩
  rw [hv]
  have hc2 : clean_expired t2 (clean_expired t s) phone = some e :=
    clean_expired_live t2 _ phone e hc ht2
  rw [verify_otp_hit phone e.code t2 _ e hc2 (Nat.not_le.mpr ht2) htrim.symm]

/-- Witness for `otp_wrong_code_retains` at concrete inputs. -/
theorem otp_wrong_code_retains_witness :
    (Store.empty.insert "p" ⟨"123456", 600⟩) "p" = some ⟨"123456", 600⟩ ∧
    (10 : Nat) < (600 : Nat) ∧
    (OtpEntry.mk "123456" 600).code ≠ pyStrip "000000" ∧
    (20 : Nat) < (600 : Nat) ∧
    pyStrip (OtpEntry.mk "123456" 600).code = (OtpEntry.mk "123456" 600).code ∧
    ((verify_otp "p" "000000" 10 (Store.empty.insert "p" ⟨"123456", 600⟩)).2 =
        false ∧
     (verify_otp "p" "000000" 10
        (Store.empty.insert "p" ⟨"123456", 600⟩)).1 "p" =
          some ⟨"123456", 600⟩ ∧
     (verify_otp "p" (OtpEntry.mk "123456" 600).code 20
        (verify_otp "p" "000000" 10
          (Store.empty.insert "p" ⟨"123456", 600⟩)).1).2 = true) :=
  ⟨by decide, by decide, by decide, by decide, by decide,
    otp_wrong_code_retains "p" "000000" 10 20
      (Store.empty.insert "p" ⟨"123456", 600⟩) ⟨"123456", 600⟩
      (by decide) (by decide) (by decide) (by decide) (by decide)⟩

/-- C4: a record whose expiry is at or before the current time makes
`verify_otp` return `false` for any candidate (matching or not), and the
expired record is deleted by that very call. -/
theorem otp_expired_rejected (phone cand : String) (t : Nat) (s : Store)
    (e : OtpEntry) (hlook : s phone = some e) (hexp : e.expires_at ≤ t) :
    (verify_otp phone cand t s).2 = false ∧
    (verify_otp phone cand t s).1 phone = none := by
  have hc := clean_expired_dead t s phone e hlook hexp
  have hv := verify_otp_miss phone cand t s hc
  exact ⟨by rw [hv], by rw [hv]; exact hc⟩

/-- Witness for `otp_expired_rejected`: the candidate equals the stored code,
yet the expired record is rejected and removed. -/
theorem otp_expired_rejected_witness :
    (Store.empty.insert "p" ⟨"123456", 600⟩) "p" = some ⟨"123456", 600⟩ ∧
    (OtpEntry.mk "123456" 600).expires_at ≤ (600 : Nat) ∧
    ((verify_otp "p" "123456" 600 (Store.empty.insert "p" ⟨"123456", 600⟩)).2 =
        false ∧
     (verify_otp "p" "123456" 600
        (Store.empty.insert "p" ⟨"123456", 600⟩)).1 "p" = none) :=
  ⟨by decide, by decide,
    otp_expired_rejected "p" "123456" 600
      (Store.empty.insert "p" ⟨"123456", 600⟩) ⟨"123456", 600⟩
      (by decide) (by decide)⟩

/-- C8: operations on subject `a` never touch an unexpired record of a
different subject `b`: both `send_otp a` and `verify_otp a` leave `b`'s entry
exactly as it was. -/
theorem otp_no_cross_subject (cfg : TwilioConfig) (a b code cand : String)
    (now : Nat) (s : Store) (e : OtpEntry) (hab : b ≠ a)
    (hlook : s b = some e) (hunexp : now < e.expires_at) :
    (send_otp cfg a code now s).1 b = some e ∧
    (verify_otp a cand now s).1 b = some e := by
  have hce : clean_expired now s b = some e :=
    clean_expired_live now s b e hlook hunexp
  constructor
  · rw [send_otp_fst, Store.insert_other _ _ _ _ hab]; exact hce
  · rw [verify_otp_fst_frame a cand now s b hab]; exact hce

/-- Witness for `otp_no_cross_subject` at concrete inputs. -/
theorem otp_no_cross_subject_witness :
    ("q" : String) ≠ "p" ∧
    (Store.empty.insert "q" ⟨"999999", 600⟩) "q" = some ⟨"999999", 600⟩ ∧
    (3 : Nat) < (600 : Nat) ∧
    ((send_otp ⟨"s", "t", "+1", true⟩ "p" "123456" 3
        (Store.empty.insert "q" ⟨"999999", 600⟩)).1 "q" =
          some ⟨"999999", 600⟩ ∧
     (verify_otp "p" "123456" 3
        (Store.empty.insert "q" ⟨"999999", 600⟩)).1 "q" =
          some ⟨"999999", 600⟩) :=
  ⟨by decide, by decide, by decide,
    otp_no_cross_subject ⟨"s", "t", "+1", true⟩ "p" "q" "123456" "123456" 3
      (Store.empty.insert "q" ⟨"999999", 600⟩) ⟨"999999", 600⟩
      (by decide) (by decide) (by decide)⟩

/-- C9: the store write in `send_otp` precedes the configuration checks, so
when the Twilio credentials are missing (and no client is cached) the call
fails with the configuration error while the fresh record is already stored,
and the correct code would verify within the TTL. -/
theorem otp_send_writes_before_config_check (cfg : TwilioConfig)
    (phone code : String) (now t : Nat) (s : Store)
    (hnc : cfg.clientCached = false) (hsid : cfg.accountSid = "")
    (hcode : pyStrip code = code) (ht : t < now + OTP_TTL_SECONDS) :
    (send_otp cfg phone code now s).2 =
      .error "Twilio credentials not configured" ∧
    (send_otp cfg phone code now s).1 phone =
      some ⟨code, now + OTP_TTL_SECONDS⟩ ∧
    (verify_otp phone code t (send_otp cfg phone code now s).1).2 = true := by
  have hlook : (send_otp cfg phone code now s).1 phone =
      some ⟨code, now + OTP_TTL_SECONDS⟩ := by
    rw [send_otp_fst]; exact Store.insert_self ..
  refine ⟨by simp [send_otp, hnc, hsid], hlook, ?_⟩
  have hc1 := clean_expired_live t _ phone _ hlook ht
  rw [verify_otp_hit phone code t (send_otp cfg phone code now s).1
    ⟨code, now + OTP_TTL_SECONDS⟩ hc1 (Nat.not_le.mpr ht) hcode.symm]

/-- Witness for `otp_send_writes_before_config_check` at concrete inputs. -/
theorem otp_send_writes_before_config_check_witness :
    (TwilioConfig.mk "" "t" "+1" false).clientCached = false ∧
    (TwilioConfig.mk "" "t" "+1" false).accountSid = "" ∧
    pyStrip "123456" = "123456" ∧ (5 : Nat) < 0 + OTP_TTL_SECONDS ∧
    ((send_otp ⟨"", "t", "+1", false⟩ "p" "123456" 0 Store.empty).2 =
        .error "Twilio credentials not configured" ∧
     (send_otp ⟨"", "t", "+1", false⟩ "p" "123456" 0 Store.empty).1 "p" =
        some ⟨"123456", 0 + OTP_TTL_SECONDS⟩ ∧
     (verify_otp "p" "123456" 5
        (send_otp ⟨"", "t", "+1", false⟩ "p" "123456" 0 Store.empty).1).2 =
          true) :=
  ⟨by decide, by decide, by decide, by decide,
    otp_send_writes_before_config_check ⟨"", "t", "+1", false⟩ "p" "123456"
      0 5 Store.empty (by decide) (by decide) (by decide) (by decide)⟩

/-! ### Helper lemmas for the header parser -/

lemma pySplitAux_word (w : Str) (hw : ∀ c ∈ w, c.isWhitespace = false)
    (rest acc : Str) :
    pySplitAux (w ++ rest) acc = pySplitAux rest (w.reverse ++ acc) := by
  induction w generalizing acc with
  | nil => simp
  | cons c cs ih =>
    have hc : c.isWhitespace = false := hw c (by simp)
    have ih2 := ih (fun x hx => hw x (by simp [hx])) (c :: acc)
    simp only [List.cons_append, pySplitAux, hc, Bool.false_eq_true,
      if_false, List.reverse_cons, List.append_assoc,
      List.singleton_append]
    simpa using ih2

lemma pySplitAux_nonws (t : Str) (h : ∀ c ∈ t, c.isWhitespace = false)
    (acc : Str) :
    pySplitAux t acc =
      if acc.reverse ++ t = [] then [] else [acc.reverse ++ t] := by
  induction t generalizing acc with
  | nil => simp [pySplitAux, List.reverse_eq_nil_iff]
  | cons c cs ih =>
    have hc : c.isWhitespace = false := h c (by simp)
    have ih2 := ih (fun x hx => h x (by simp [hx])) (c :: acc)
    simp [pySplitAux, hc, ih2, List.append_assoc]

lemma pySplit_scheme_token (sch : Str) (hsch : sch ≠ [])
    (hs : ∀ c ∈ sch, c.isWhitespace = false) (ws : Char)
    (hws : ws.isWhitespace = true) (t : Str) (ht : t ≠ [])
    (hw : ∀ c ∈ t, c.isWhitespace = false) :
    pySplit (sch ++ ws :: t) = [sch, t] := by
  unfold pySplit
  rw [show sch ++ ws :: t = sch ++ (ws :: t) from rfl,
    pySplitAux_word sch hs]
  simp [pySplitAux, hws, pySplitAux_nonws t hw [], ht, hsch]

lemma gcui_some (verify : Str → Option (Option Str))
    (userActive : Str → Bool) (a : Str) :
    get_current_user_id verify userActive (some a) =
      if a = [] then .error errHeaderRequired
      else handle_parts verify userActive (pySplit a) := rfl

lemma gcui_scheme (verify : Str → Option (Option Str))
    (userActive : Str → Bool) (sch : Str) (hsch : sch ≠ [])
    (hs : ∀ c ∈ sch, c.isWhitespace = false) (ws : Char)
    (hws : ws.isWhitespace = true) (hb : pyLower sch = "bearer".toList)
    (t : Str) (ht : t ≠ []) (hw : ∀ c ∈ t, c.isWhitespace = false) :
    get_current_user_id verify userActive (some (sch ++ ws :: t)) =
      handle_token verify userActive t := by
  have hne : sch ++ ws :: t ≠ [] := by simp
  rw [gcui_some, if_neg hne, pySplit_scheme_token sch hsch hs ws hws t ht hw]
  simp [handle_parts, hb]

/-- The verify-independent value of `get_current_user_id` on a rejected
header. -/
def gcui_bad_value : Option Str → Except HTTPError Str
  | none => .error errHeaderRequired
  | some s => if s = [] then .error errHeaderRequired else .error errBadFormat

lemma gcui_bad_value_some (s : Str) :
    gcui_bad_value (some s) =
      if s = [] then .error errHeaderRequired else .error errBadFormat := rfl

lemma gcui_bad (verify : Str → Option (Option Str)) (userActive : Str → Bool)
    (a : Option Str) (h : BadAuthHeader a) :
    get_current_user_id verify userActive a = gcui_bad_value a := by
  match a with
  | none => rfl
  | some s =>
    by_cases hs : s = []
    · rw [gcui_some, gcui_bad_value_some, if_pos hs, if_pos hs]
    · rcases h with h | h
      · exact absurd h hs
      · rw [gcui_some, gcui_bad_value_some, if_neg hs, if_neg hs]
        cases hp : pySplit s with
        | nil => rfl
        | cons x xs =>
          cases xs with
          | nil => rfl
          | cons y ys =>
            cases ys with
            | nil =>
              have hx := h x y hp
              simp only [handle_parts]
              rw [if_neg hx]
            | cons z zs => rfl

/-! ### Claim theorems for the token gate and owner check -/

/-- C5: the owner check in `verify_user_access`: a mismatched authenticated
subject is rejected with the forbidden 403, and a matching one succeeds with
the requested identifier. -/
theorem owner_check_forbidden_or_ok (a b : String) :
    (a ≠ b → verify_user_access b a = .error errForbidden ∧
      errForbidden.status = 403) ∧
    (a = b → verify_user_access b a = .ok b) := by
  constructor
  · intro h; exact ⟨by simp [verify_user_access, h], rfl⟩
  · intro h; simp [verify_user_access, h]

/-- Witness for `owner_check_forbidden_or_ok` on both branches. -/
theorem owner_check_forbidden_or_ok_witness :
    (("u1" : String) ≠ "u2" ∧ verify_user_access "u2" "u1" =
        .error errForbidden ∧ errForbidden.status = 403) ∧
    (verify_user_access "u" "u" = .ok "u") :=
  ⟨⟨by decide, (owner_check_forbidden_or_ok "u1" "u2").1 (by decide)⟩,
    (owner_check_forbidden_or_ok "u" "u").2 rfl⟩

/-- C6: an absent header, or one whose `split()` is not a two-part credential
with a (case-insensitive) `bearer` scheme, is rejected with a 401 whose value
does not depend on the token verifier or the user directory — so no signature
verification is ever consulted. -/
theorem auth_reject_before_verification (v1 v2 : Str → Option (Option Str))
    (u1 u2 : Str → Bool) (a : Option Str) (h : BadAuthHeader a) :
    get_current_user_id v1 u1 a = get_current_user_id v2 u2 a ∧
    ∃ d, get_current_user_id v1 u1 a = .error ⟨401, d⟩ := by
  have h1 := gcui_bad v1 u1 a h
  have h2 := gcui_bad v2 u2 a h
  refine ⟨h1.trans h2.symm, ?_⟩
  rw [h1]
  match a with
  | none => exact ⟨errHeaderRequired.detail, rfl⟩
  | some s =>
    by_cases hs : s = []
    · exact ⟨errHeaderRequired.detail,
        by rw [gcui_bad_value_some, if_pos hs]; rfl⟩
    · exact ⟨errBadFormat.detail,
        by rw [gcui_bad_value_some, if_neg hs]; rfl⟩

/-- Witness for `auth_reject_before_verification`: a `Basic` credential is
rejected identically under two different verifiers. -/
theorem auth_reject_before_verification_witness :
    BadAuthHeader (some "Basic abc".toList) ∧
    (get_current_user_id (fun _ => none) (fun _ => true)
        (some "Basic abc".toList) =
      get_current_user_id (fun _ => some (some "u".toList)) (fun _ => false)
        (some "Basic abc".toList) ∧
     ∃ d, get_current_user_id (fun _ => none) (fun _ => true)
        (some "Basic abc".toList) = .error ⟨401, d⟩) := by
  have hbad : BadAuthHeader (some "Basic abc".toList) := by
    right
    intro sch tok hp
    rw [show pySplit "Basic abc".toList =
      ["Basic".toList, "abc".toList] from by decide] at hp
    injection hp with hx hrest
    rw [← hx]
    decide
  exact ⟨hbad, auth_reject_before_verification _ _ _ _ _ hbad⟩

/-- C7: a well-formed bearer credential whose token makes
`verify_access_token` raise (failed signature check or expiry) yields the
specific 401 "invalid or expired" rejection, not a generic server error. -/
theorem auth_invalid_token_rejected_401 (verify : Str → Option (Option Str))
    (userActive : Str → Bool) (a sch tok : Str)
    (hs : pySplit a = [sch, tok]) (hb : pyLower sch = "bearer".toList)
    (hv : verify tok = none) :
    get_current_user_id verify userActive (some a) = .error errInvalidToken ∧
    errInvalidToken.status = 401 := by
  have ha : a ≠ [] := by
    intro h
    rw [h] at hs
    simp [pySplit, pySplitAux] at hs
  rw [gcui_some, if_neg ha, hs]
  exact ⟨by simp [handle_parts, hb, handle_token, hv], rfl⟩

/-- Witness for `auth_invalid_token_rejected_401` with an always-raising
verifier. -/
theorem auth_invalid_token_rejected_401_witness :
    pySplit "Bearer abc".toList = ["Bearer".toList, "abc".toList] ∧
    pyLower "Bearer".toList = "bearer".toList ∧
    (fun _ : Str => (none : Option (Option Str))) "abc".toList = none ∧
    (get_current_user_id (fun _ => none) (fun _ => true)
        (some "Bearer abc".toList) = .error errInvalidToken ∧
      errInvalidToken.status = 401) :=
  ⟨by decide, by decide, rfl,
    auth_invalid_token_rejected_401 (fun _ => none) (fun _ => true)
      "Bearer abc".toList "Bearer".toList "abc".toList
      (by decide) (by decide) rfl⟩

/-- C10: the scheme check is case-insensitive and splitting is on arbitrary
whitespace: `bearer t`, `BEARER t` and a tab-separated `Bearer\tt` all proceed
to token verification exactly as `Bearer t` does. -/
theorem auth_bearer_scheme_flexible (verify : Str → Option (Option Str))
    (userActive : Str → Bool) (t : Str) (ht : t ≠ [])
    (hw : ∀ c ∈ t, c.isWhitespace = false) :
    get_current_user_id verify userActive (some ("Bearer ".toList ++ t)) =
      handle_token verify userActive t ∧
    get_current_user_id verify userActive (some ("bearer ".toList ++ t)) =
      handle_token verify userActive t ∧
    get_current_user_id verify userActive (some ("BEARER ".toList ++ t)) =
      handle_token verify userActive t ∧
    get_current_user_id verify userActive (some ("Bearer\t".toList ++ t)) =
      handle_token verify userActive t := by
  refine ⟨?_, ?_, ?_, ?_⟩
  · rw [show ("Bearer ".toList ++ t : Str) = "Bearer".toList ++ ' ' :: t
      from rfl]
    exact gcui_scheme verify userActive "Bearer".toList (by decide)
      (by decide) ' ' (by decide) (by decide) t ht hw
  · rw [show ("bearer ".toList ++ t : Str) = "bearer".toList ++ ' ' :: t
      from rfl]
    exact gcui_scheme verify userActive "bearer".toList (by decide)
      (by decide) ' ' (by decide) (by decide) t ht hw
  · rw [show ("BEARER ".toList ++ t : Str) = "BEARER".toList ++ ' ' :: t
      from rfl]
    exact gcui_scheme verify userActive "BEARER".toList (by decide)
      (by decide) ' ' (by decide) (by decide) t ht hw
  · rw [show ("Bearer\t".toList ++ t : Str) = "Bearer".toList ++ '\t' :: t
      from rfl]
    exact gcui_scheme verify userActive "Bearer".toList (by decide)
      (by decide) '\t' (by decide) (by decide) t ht hw

/-- Witness for `auth_bearer_scheme_flexible` at a concrete token. -/
theorem auth_bearer_scheme_flexible_witness :
    ("tok".toList : Str) ≠ [] ∧
    (∀ c ∈ ("tok".toList : Str), c.isWhitespace = false) ∧
    (get_current_user_id (fun _ => some (some "u7".toList)) (fun _ => true)
        (some ("Bearer ".toList ++ "tok".toList)) =
      handle_token (fun _ => some (some "u7".toList)) (fun _ => true)
        "tok".toList ∧
     get_current_user_id (fun _ => some (some "u7".toList)) (fun _ => true)
        (some ("bearer ".toList ++ "tok".toList)) =
      handle_token (fun _ => some (some "u7".toList)) (fun _ => true)
        "tok".toList ∧
     get_current_user_id (fun _ => some (some "u7".toList)) (fun _ => true)
        (some ("BEARER ".toList ++ "tok".toList)) =
      handle_token (fun _ => some (some "u7".toList)) (fun _ => true)
        "tok".toList ∧
     get_current_user_id (fun _ => some (some "u7".toList)) (fun _ => true)
        (some ("Bearer\t".toList ++ "tok".toList)) =
      handle_token (fun _ => some (some "u7".toList)) (fun _ => true)
        "tok".toList) :=
  ⟨by decide, by decide,
    auth_bearer_scheme_flexible (fun _ => some (some "u7".toList))
      (fun _ => true) "tok".toList (by decide) (by decide)⟩

end FoodEasy
